import Mathlib

/-!
Shallow embedding of `openslide-decode-tifflike.c` (the generic
TIFF/BigTIFF container parser of OpenSlide) and proofs about its specification.

Modelling conventions:
* the open seekable source (`FILE *`) is a finite byte list `f : List Nat`
  together with an explicit stream position `pos : Int`; `fseeko` to a
  non-negative offset always succeeds on a regular file, `fread` of `n`
  bytes succeeds exactly when `n` bytes are available at the position;
* machine integers are `Nat`/`Int` with explicit wrap-around where the C
  code narrows or converts (`toInt64`, `% 2 ^ 64`);
* the host is little-endian, so `GUINT*_FROM_LE` is the identity and
  `GUINT*_FROM_BE` reverses the bytes of each element, and reinterpreting a
  memory buffer as an integer decodes its bytes little-endian;
* fallible C functions returning `NULL`/`false` plus a `GError` become
  `Except TErr`, and the out-parameter `bool *ok` pattern becomes `Option`.
-/

namespace OpenSlide

/-- Error taxonomy of the source (`OPENSLIDE_ERROR_BAD_DATA`, I/O errors,
`OPENSLIDE_ERROR_FORMAT_NOT_SUPPORTED`) with the attached message.
`fuelOut` is the out-of-fuel sentinel of the fuel-indexed directory walk;
it is proved unreachable below. -/
inductive TErr where
  | badData (msg : String)
  | ioError (msg : String)
  | fmtNotSupported (msg : String)
  | fuelOut
  deriving DecidableEq, Repr

/-- Little-endian decoding of a byte list into an unsigned integer
(reinterpreting a memory buffer on the little-endian host). -/
def leDecode : List Nat → Nat
  | [] => 0
  | b :: rest => b + 256 * leDecode rest

/-- Reverse each consecutive chunk of `size` bytes; the fuel argument (an
upper bound on the number of chunks) keeps the recursion structural. -/
def swapChunksAux (size : Nat) : Nat → List Nat → List Nat
  | 0, _ => []
  | _, [] => []
  | fuel + 1, a :: rest =>
    ((a :: rest).take size).reverse ++ swapChunksAux size fuel ((a :: rest).drop size)

/-- Reverse each consecutive chunk of `size` bytes of `l`. -/
def swapChunks (size : Nat) (l : List Nat) : List Nat :=
  swapChunksAux size l.length l

/-- Model of `fix_byte_order`: convert a buffer of elements of width `size` from the
file byte order to host (little-endian) order.  `GUINTn_FROM_LE` is the
identity on the little-endian host; `GUINTn_FROM_BE` swaps each element. -/
def fix_byte_order (data : List Nat) (size : Nat) (bigEndian : Bool) : List Nat :=
  if size = 1 then data
  else if bigEndian then swapChunks size data else data

/-- Bytes `pos .. pos+len` of the file, as stored (each byte reduced mod 256). -/
def byteSlice (f : List Nat) (pos len : Nat) : List Nat :=
  ((f.drop pos).take len).map (· % 256)

/-- Model of `fread(buf, len, 1, f)`: succeeds iff `len` bytes are available at the
current position, returning them and the advanced position. -/
def sreadBytes (f : List Nat) (pos : Int) (len : Nat) : Option (List Nat × Int) :=
  if 0 ≤ pos ∧ pos + (len : Int) ≤ (f.length : Int) then
    some (byteSlice f pos.toNat len, pos + (len : Int))
  else none

/-- Model of `read_uint`: read `size` bytes at `pos` and decode them as an unsigned
integer in the file byte order (fread, `fix_byte_order`, memcpy).
`none` models the `*ok = false` failure path. -/
def read_uint (f : List Nat) (pos : Int) (size : Nat) (bigEndian : Bool) :
    Option (Nat × Int) :=
  match sreadBytes f pos size with
  | none => none
  | some (buf, pos1) => some (leDecode (fix_byte_order buf size bigEndian), pos1)

/-- Conversion of a `uint64_t` value to `int64_t` (twos-complement wrap). -/
def toInt64 (n : Nat) : Int :=
  if n < 2 ^ 63 then (n : Int) else (n : Int) - 2 ^ 64

/-- Reinterpret the unsigned value `v` (a `bits`-bit pattern) as a signed
`bits`-bit integer. -/
def wrapSigned (bits : Nat) (v : Nat) : Int :=
  if v < 2 ^ (bits - 1) then (v : Int) else (v : Int) - 2 ^ bits

/-- Wrap an integer into the `int64_t` range (the defined behaviour of the
`int64 += uint64` accumulation: addition mod `2^64`, then reinterpreted). -/
def i64wrap (x : Int) : Int :=
  toInt64 (Int.emod x (2 ^ 64)).toNat

/-- Value of `SSIZE_MAX` on an LP64 platform. -/
def ssizeMax : Int := 2 ^ 63 - 1

/-- Model of `read_tiff_value`: decode the value buffer of one entry.  Returns the decoded
bytes (or `none` on failure) together with the resulting stream position.
Inline values (`len ≤ value_len`) are copied from the value field of the entry
with no file access; longer values are read at the absolute `offset`, after
which the prior position is restored. -/
def read_tiff_value (f : List Nat) (pos : Int) (size count offset : Int)
    (value : List Nat) (value_len : Int) (bigEndian : Bool) :
    Option (List Nat) × Int :=
  if size ≤ 0 ∨ count ≤ 0 ∨ count > ssizeMax / size then (none, pos)
  else
    let len : Int := size * count
    if len ≤ value_len then
      (some (fix_byte_order (value.take len.toNat) size.toNat bigEndian), pos)
    else
      if offset < 0 then (none, pos)
      else
        match sreadBytes f offset len.toNat with
        | none => (none, offset)
        | some (bytes, _) => (some (fix_byte_order bytes size.toNat bigEndian), pos)

/-- Model of `struct tiff_item`: a decoded directory entry.  `count` is the logical
element count as stored (before the Rational doubling); `value` is the owned
byte buffer in host order. -/
structure TiffItem where
  type : Nat
  count : Int
  value : List Nat
  deriving DecidableEq, Repr

/-- One parsed directory: the tag-keyed hash table, as an insertion list
where the most recent insertion for a tag shadows older ones. -/
abbrev Dir := List (Nat × TiffItem)

/-- Model of `struct _openslide_tifflike`: the ordered list of parsed directories. -/
abbrev Tifflike := List Dir

/-- Model of `g_hash_table_insert`: the new binding replaces any previous one. -/
def dirInsert (d : Dir) (tag : Nat) (item : TiffItem) : Dir :=
  (tag, item) :: d

/-- Model of `g_hash_table_lookup` keyed by tag id (stored keys are `uint16`, queries
are `int32`). -/
def dirLookup (d : Dir) (tag : Int) : Option TiffItem :=
  (d.find? (fun p => (p.1 : Int) == tag)).map Prod.snd

/-- The `value_size` switch of `read_directory`: element width in bytes for
each known TIFF type id, `none` for an unknown type. -/
def typeSize (t : Nat) : Option Nat :=
  if t = 1 ∨ t = 2 ∨ t = 6 ∨ t = 7 then some 1
  else if t = 3 ∨ t = 8 then some 2
  else if t = 4 ∨ t = 9 ∨ t = 11 ∨ t = 13 then some 4
  else if t = 5 ∨ t = 10 then some 4
  else if t = 12 ∨ t = 16 ∨ t = 17 ∨ t = 18 then some 8
  else none

/-- The entry loop of `read_directory`: read `n` directory entries starting
at `pos`, accumulating them into `dir`. -/
def read_entries (f : List Nat) (bigtiff bigEndian : Bool) :
    Nat → Int → Dir → Except TErr (Dir × Int)
  | 0, pos, dir => .ok (dir, pos)
  | n + 1, pos, dir =>
    match read_uint f pos 2 bigEndian with
    | none => .error (.badData "Cannot read tag, type, and count")
    | some (tag, pos1) =>
      match read_uint f pos1 2 bigEndian with
      | none => .error (.badData "Cannot read tag, type, and count")
      | some (type, pos2) =>
        match read_uint f pos2 (if bigtiff then 8 else 4) bigEndian with
        | none => .error (.badData "Cannot read tag, type, and count")
        | some (count, pos3) =>
          match sreadBytes f pos3 (if bigtiff then 8 else 4) with
          | none => .error (.badData "Cannot read value/offset")
          | some (value, pos4) =>
            let offset : Nat :=
              leDecode (fix_byte_order value (if bigtiff then 8 else 4) bigEndian)
            match typeSize type with
            | none => .error (.badData "Unknown type encountered")
            | some value_size =>
              let rcount : Nat :=
                if type = 5 ∨ type = 10 then count * 2 % 2 ^ 64 else count
              match read_tiff_value f pos4 (value_size : Int) (toInt64 rcount)
                  (toInt64 offset) value (if bigtiff then 8 else 4) bigEndian with
              | (none, _) => .error (.badData "Cannot read value")
              | (some bytes, pos5) =>
                read_entries f bigtiff bigEndian n pos5
                  (dirInsert dir tag { type := type, count := toInt64 count, value := bytes })

/-- Model of `read_directory`: decode the directory at `off` (offset guard, loop
detection against `visited`, dircount, entries, next-directory offset).
Returns the directory and the next-directory offset.  Seeking to a positive
offset of a regular file always succeeds, so the `Cannot seek` branch of the
source is unreachable in this model. -/
def read_directory (f : List Nat) (off : Int) (visited : List Int)
    (bigtiff bigEndian : Bool) : Except TErr (Dir × Int) :=
  if off ≤ 0 then .error (.badData "Bad offset")
  else if off ∈ visited then .error (.badData "Loop detected")
  else
    match read_uint f off (if bigtiff then 8 else 2) bigEndian with
    | none => .error (.badData "Cannot read dircount")
    | some (dircount, pos1) =>
      match read_entries f bigtiff bigEndian dircount pos1 [] with
      | .error e => .error e
      | .ok (dir, pos2) =>
        match read_uint f pos2 (if bigtiff then 8 else 4) bigEndian with
        | none => .error (.badData "Cannot read next directory offset")
        | some (next, _) => .ok (dir, toInt64 next)

/-- The `while (diroff != 0)` loop of `_openslide_tifflike_create`,
fuel-indexed; each visited offset is added to the loop-detector set. -/
def walkDirs (f : List Nat) (bigtiff bigEndian : Bool) :
    Nat → Int → List Int → Except TErr (List Dir)
  | 0, _, _ => .error .fuelOut
  | fuel + 1, diroff, visited =>
    if diroff = 0 then .ok []
    else
      match read_directory f diroff visited bigtiff bigEndian with
      | .error e => .error e
      | .ok (dir, next) =>
        match walkDirs f bigtiff bigEndian fuel next (diroff :: visited) with
        | .error e => .error e
        | .ok rest => .ok (dir :: rest)

/-- The header portion of `_openslide_tifflike_create`: magic, version,
BigTIFF offset-size/reserved fields, first directory offset.  Returns
`(bigEndian, bigtiff, diroff)`. -/
def parseHeader (f : List Nat) : Except TErr (Bool × Bool × Int) :=
  match sreadBytes f 0 2 with
  | none => .error (.fmtNotSupported "Cannot read TIFF magic number")
  | some (mb, pos1) =>
    let magic := leDecode mb
    if magic ≠ 0x4d4d ∧ magic ≠ 0x4949 then
      .error (.fmtNotSupported "Unrecognized TIFF magic number")
    else
      let bigEndian := magic == 0x4d4d
      match read_uint f pos1 2 bigEndian with
      | none => .error (.fmtNotSupported "Cannot read TIFF header")
      | some (version, pos2) =>
        if version = 43 then
          match read_uint f pos2 2 bigEndian with
          | none => .error (.fmtNotSupported "Cannot read TIFF header")
          | some (offset_size, pos3) =>
            match read_uint f pos3 2 bigEndian with
            | none => .error (.fmtNotSupported "Cannot read TIFF header")
            | some (pad, pos4) =>
              match read_uint f pos4 8 bigEndian with
              | none => .error (.fmtNotSupported "Cannot read TIFF header")
              | some (diroff, _) =>
                if offset_size ≠ 8 ∨ pad ≠ 0 then
                  .error (.fmtNotSupported "Unexpected value in BigTIFF header")
                else .ok (bigEndian, true, toInt64 diroff)
        else
          match read_uint f pos2 4 bigEndian with
          | none => .error (.fmtNotSupported "Cannot read TIFF header")
          | some (diroff, _) =>
            if version ≠ 42 then
              .error (.fmtNotSupported "Unrecognized TIFF version")
            else .ok (bigEndian, false, toInt64 diroff)

/-- Model of `_openslide_tifflike_create`: parse the header, walk the whole directory
chain, reject an empty chain.  All-or-nothing: any failure yields `.error`
and discards every directory parsed so far. -/
def tifflike_create (f : List Nat) : Except TErr Tifflike :=
  match parseHeader f with
  | .error e => .error e
  | .ok (bigEndian, bigtiff, diroff) =>
    match walkDirs f bigtiff bigEndian (f.length + 1) diroff [] with
    | .error e => .error e
    | .ok dirs =>
      if dirs.isEmpty then .error (.badData "TIFF contains no directories")
      else .ok dirs

/-- Model of `get_item`: directory-index bounds check plus tag lookup. -/
def get_item (tl : Tifflike) (dir tag : Int) : Option TiffItem :=
  if dir < 0 ∨ (tl.length : Int) ≤ dir then none
  else dirLookup (tl.getD dir.toNat []) tag

/-- Model of `_openslide_tifflike_get_value_count`: logical element count, 0 when the
tag (or directory) is absent. -/
def tifflike_get_value_count (tl : Tifflike) (dir tag : Int) : Int :=
  match get_item tl dir tag with
  | none => 0
  | some item => item.count

/-- Model of `get_and_check_item`: item lookup plus index-range check. -/
def get_and_check_item (tl : Tifflike) (dir tag i : Int) : Option TiffItem :=
  match get_item tl dir tag with
  | none => none
  | some item => if i < 0 ∨ item.count ≤ i then none else some item

/-- Element `i` of a host-order buffer of `width`-byte unsigned elements. -/
def getElemU (bytes : List Nat) (width i : Nat) : Nat :=
  leDecode ((bytes.drop (width * i)).take width)

/-- Model of `_openslide_tifflike_get_uint`: widen a Byte/Short/Long/Long8/IFD/IFD8
element to `uint64_t`; `none` models `*ok = false` with sentinel 0. -/
def tifflike_get_uint (tl : Tifflike) (dir tag i : Int) : Option Nat :=
  match get_and_check_item tl dir tag i with
  | none => none
  | some item =>
    if item.type = 1 then some (getElemU item.value 1 i.toNat)
    else if item.type = 3 then some (getElemU item.value 2 i.toNat)
    else if item.type = 4 ∨ item.type = 13 then some (getElemU item.value 4 i.toNat)
    else if item.type = 16 ∨ item.type = 18 then some (getElemU item.value 8 i.toNat)
    else none

/-- Model of `_openslide_tifflike_get_sint`: widen a SByte/SShort/SLong/SLong8
element to `int64_t`; `none` models `*ok = false` with sentinel 0. -/
def tifflike_get_sint (tl : Tifflike) (dir tag i : Int) : Option Int :=
  match get_and_check_item tl dir tag i with
  | none => none
  | some item =>
    if item.type = 6 then some (wrapSigned 8 (getElemU item.value 1 i.toNat))
    else if item.type = 8 then some (wrapSigned 16 (getElemU item.value 2 i.toNat))
    else if item.type = 9 then some (wrapSigned 32 (getElemU item.value 4 i.toNat))
    else if item.type = 17 then some (wrapSigned 64 (getElemU item.value 8 i.toNat))
    else none

/-- IEEE-754 double values as observed by this code: a finite value (exact
rational), an infinity, or NaN. -/
inductive DFloat where
  | fin (q : ℚ)
  | posInf
  | negInf
  | nan
  deriving DecidableEq, Repr

/-- IEEE division of two exactly representable integer operands, as used by
the Rational/SRational paths of `get_float`: a zero denominator yields
±infinity or NaN by the IEEE special-case rules; a nonzero denominator
yields the quotient (IEEE rounding of an inexact quotient is abstracted to
the exact rational value). -/
def dratDiv (a b : Int) : DFloat :=
  if b = 0 then
    if a = 0 then .nan else if 0 < a then .posInf else .negInf
  else .fin ((a : ℚ) / (b : ℚ))

/-- Decode a 32-bit IEEE-754 single-precision bit pattern. -/
def decodeFloat32 (v : Nat) : DFloat :=
  let s : Nat := v / 2 ^ 31 % 2
  let e : Nat := v / 2 ^ 23 % 2 ^ 8
  let m : Nat := v % 2 ^ 23
  if e = 255 then
    if m = 0 then (if s = 1 then .negInf else .posInf) else .nan
  else
    let mag : ℚ :=
      if e = 0 then (m : ℚ) / 2 ^ 149 else ((2 ^ 23 + m : ℚ) * 2 ^ e) / 2 ^ 150
    .fin (if s = 1 then -mag else mag)

/-- Decode a 64-bit IEEE-754 double-precision bit pattern. -/
def decodeFloat64 (v : Nat) : DFloat :=
  let s : Nat := v / 2 ^ 63 % 2
  let e : Nat := v / 2 ^ 52 % 2 ^ 11
  let m : Nat := v % 2 ^ 52
  if e = 2047 then
    if m = 0 then (if s = 1 then .negInf else .posInf) else .nan
  else
    let mag : ℚ :=
      if e = 0 then (m : ℚ) / 2 ^ 1074 else ((2 ^ 52 + m : ℚ) * 2 ^ e) / 2 ^ 1075
    .fin (if s = 1 then -mag else mag)

/-- Model of `_openslide_tifflike_get_float`: Float/Double return the stored value;
Rational/SRational divide element `2i` by element `2i+1`; `none` models
`*ok = false` with sentinel NaN. -/
def tifflike_get_float (tl : Tifflike) (dir tag i : Int) : Option DFloat :=
  match get_and_check_item tl dir tag i with
  | none => none
  | some item =>
    if item.type = 11 then some (decodeFloat32 (getElemU item.value 4 i.toNat))
    else if item.type = 12 then some (decodeFloat64 (getElemU item.value 8 i.toNat))
    else if item.type = 5 then
      some (dratDiv (getElemU item.value 4 (2 * i.toNat))
        (getElemU item.value 4 (2 * i.toNat + 1)))
    else if item.type = 10 then
      some (dratDiv (wrapSigned 32 (getElemU item.value 4 (2 * i.toNat)))
        (wrapSigned 32 (getElemU item.value 4 (2 * i.toNat + 1))))
    else none

/-- Model of `_openslide_tifflike_get_buffer`: raw bytes for Ascii/Undefined only. -/
def tifflike_get_buffer (tl : Tifflike) (dir tag : Int) : Option (List Nat) :=
  match get_item tl dir tag with
  | none => none
  | some item =>
    if item.type = 2 ∨ item.type = 7 then some item.value else none

/-- Modelled from the spec: `struct _openslide_hash`, the content-hash
accumulator (declared in `openslide-private.h`, implemented outside this
source).  `disabled` is the permanent Disabled state of section 4.6;
`parts` records each `(offset, length)` byte range of the source fed to the
accumulator, so an unchanged `parts` means no data bytes were read. -/
structure HashAcc where
  disabled : Bool
  parts : List (Int × Int)
  deriving DecidableEq, Repr

/-- Modelled from the spec: `_openslide_hash_disable` moves the accumulator
into the permanent Disabled state. -/
def hashDisable (h : HashAcc) : HashAcc :=
  { h with disabled := true }

/-- Modelled from the spec: `_openslide_hash_file_part` reads `length` bytes
at `offset` from the source and feeds them to the accumulator; a short or
out-of-range read fails. -/
def hash_file_part (h : HashAcc) (f : List Nat) (offset length : Int) :
    Option HashAcc :=
  if 0 ≤ offset ∧ 0 ≤ length ∧ offset + length ≤ (f.length : Int) then
    some { h with parts := h.parts ++ [(offset, length)] }
  else none

/-- One `_openslide_tifflike_get_uint` call of `hash_tiff_level`: the value
as accumulated into an `int64_t` plus the sticky `ok` flag. -/
def getUintOk (tl : Tifflike) (dir tag i : Int) (ok : Bool) : Int × Bool :=
  match tifflike_get_uint tl dir tag i with
  | some v => (toInt64 v, ok)
  | none => (0, false)

/-- The pre-scan loop of `hash_tiff_level`: sum the tile/strip lengths,
returning `none` as soon as the running total exceeds the 5 MiB ceiling,
otherwise the final sticky `ok` flag. -/
def hashScan (tl : Tifflike) (dir ltag : Int) : Nat → Nat → Int → Bool → Option Bool
  | 0, _, _, ok => some ok
  | n + 1, i, total, ok =>
    let vo := getUintOk tl dir ltag (i : Int) ok
    let total1 := i64wrap (total + vo.1)
    if 5242880 < total1 then none
    else hashScan tl dir ltag n (i + 1) total1 vo.2

/-- The hashing loop of `hash_tiff_level`: feed each tile/strip byte range
to the accumulator. -/
def hashParts (f : List Nat) (tl : Tifflike) (dir otag ltag : Int) :
    Nat → Nat → Bool → HashAcc → Except TErr HashAcc
  | 0, _, _, h => .ok h
  | n + 1, i, ok, h =>
    let oo := getUintOk tl dir otag (i : Int) ok
    let lo := getUintOk tl dir ltag (i : Int) oo.2
    if lo.2 = false then .error (.badData "Invalid tile/strip offset/length")
    else
      match hash_file_part h f oo.1 lo.1 with
      | none => .error (.ioError "Cannot hash file part")
      | some h1 => hashParts f tl dir otag ltag n (i + 1) lo.2 h1

/-- Layout detection of `hash_tiff_level`: TileOffsets(324)/TileByteCounts
(325) when tiled, StripOffsets(273)/StripByteCounts(279) when stripped. -/
def layoutOf (tl : Tifflike) (dir : Int) : Option (Int × Int) :=
  if tifflike_get_value_count tl dir 324 ≠ 0 then some (324, 325)
  else if tifflike_get_value_count tl dir 273 ≠ 0 then some (273, 279)
  else none

/-- Model of `hash_tiff_level`: pick the layout, check the counts, pre-scan the
lengths against the 5 MiB ceiling (disabling the hash when exceeded), then
feed each tile/strip range to the accumulator. -/
def hash_tiff_level (f : List Nat) (h : HashAcc) (tl : Tifflike) (dir : Int) :
    Except TErr HashAcc :=
  match layoutOf tl dir with
  | none => .error (.badData "Directory is neither tiled nor stripped")
  | some (otag, ltag) =>
    let count := tifflike_get_value_count tl dir otag
    if count = 0 ∨ count ≠ tifflike_get_value_count tl dir ltag then
      .error (.badData "Invalid tile/strip counts")
    else
      match hashScan tl dir ltag count.toNat 0 0 true with
      | none => .ok (hashDisable h)
      | some ok => hashParts f tl dir otag ltag count.toNat 0 ok h

/-- Running total computed by the pre-scan over indices `i, i+1, ...` for
`n` steps, starting from `total` (`int64` accumulation). -/
def scanFrom (tl : Tifflike) (dir ltag : Int) : Nat → Nat → Int → Int
  | 0, _, total => total
  | n + 1, i, total =>
    scanFrom tl dir ltag n (i + 1) (i64wrap (total + (getUintOk tl dir ltag (i : Int) true).1))

/-- The summed tile/strip byte counts of a directory, as the code sums them. -/
def scanSum (tl : Tifflike) (dir ltag : Int) (n : Nat) : Int :=
  scanFrom tl dir ltag n 0 0

/-- Magic number of a file: its first two bytes as read by `fread` into a
`uint16_t` on the little-endian host. -/
def headerMagic (f : List Nat) : Nat :=
  leDecode (byteSlice f 0 2)

/-- File byte order as determined from the magic number. -/
def headerBigEndian (f : List Nat) : Bool :=
  headerMagic f == 0x4d4d

/-- Version field of a file header, decoded in the file byte order. -/
def headerVersion (f : List Nat) : Nat :=
  leDecode (fix_byte_order (byteSlice f 2 2) 2 (headerBigEndian f))

/-- Offset-size field of a BigTIFF header. -/
def headerOffsetSize (f : List Nat) : Nat :=
  leDecode (fix_byte_order (byteSlice f 4 2) 2 (headerBigEndian f))

/-- Reserved (pad) field of a BigTIFF header. -/
def headerPad (f : List Nat) : Nat :=
  leDecode (fix_byte_order (byteSlice f 6 2) 2 (headerBigEndian f))

/-- A directory chain parses completely: starting from `off` with the given
visited set, every directory decodes successfully and the final
next-directory offset is 0.  `dirs` collects the decoded directories. -/
inductive ChainOk (f : List Nat) (bigtiff bigEndian : Bool) :
    Int → List Int → List Dir → Prop
  | nil (visited : List Int) : ChainOk f bigtiff bigEndian 0 visited []
  | cons {off : Int} {visited : List Int} {d : Dir} {next : Int} {ds : List Dir}
      (hd : read_directory f off visited bigtiff bigEndian = .ok (d, next))
      (hrest : ChainOk f bigtiff bigEndian next (off :: visited) ds) :
      ChainOk f bigtiff bigEndian off visited (d :: ds)

/-- A classic little-endian TIFF whose two directories point at each other:
directory A at offset 8 has next-offset 14, directory B at offset 14 has
next-offset 8. -/
def cycFile : List Nat :=
  [0x49, 0x49, 42, 0, 8, 0, 0, 0,
   0, 0, 14, 0, 0, 0,
   0, 0, 8, 0, 0, 0]

/-- A minimal valid classic little-endian TIFF: one empty directory at
offset 8 with next-offset 0. -/
def goodFile : List Nat :=
  [0x49, 0x49, 42, 0, 8, 0, 0, 0,
   0, 0, 0, 0, 0, 0]

/-- A classic little-endian TIFF whose single directory contains the same
tag id 300 twice: first a Short entry with value 5, then one with value 9. -/
def dupFile : List Nat :=
  [0x49, 0x49, 42, 0, 8, 0, 0, 0,
   2, 0,
   0x2c, 1, 3, 0, 1, 0, 0, 0, 5, 0, 0, 0,
   0x2c, 1, 3, 0, 1, 0, 0, 0, 9, 0, 0, 0,
   0, 0, 0, 0]

/-- A classic little-endian TIFF whose single directory has two Rational
entries (tag 256 holding {1,2}, tag 257 holding {1,0}, both stored out of
line), an SRational entry (tag 258 holding {-1,2}), a Float entry (tag 259
holding 0.5f, stored inline), and a Double entry (tag 260 holding 0.5). -/
def ratFile : List Nat :=
  [0x49, 0x49, 42, 0, 8, 0, 0, 0,
   5, 0,
   0, 1, 5, 0, 1, 0, 0, 0, 74, 0, 0, 0,
   1, 1, 5, 0, 1, 0, 0, 0, 82, 0, 0, 0,
   2, 1, 10, 0, 1, 0, 0, 0, 90, 0, 0, 0,
   3, 1, 11, 0, 1, 0, 0, 0, 0, 0, 0, 63,
   4, 1, 12, 0, 1, 0, 0, 0, 98, 0, 0, 0,
   0, 0, 0, 0,
   1, 0, 0, 0, 2, 0, 0, 0,
   1, 0, 0, 0, 0, 0, 0, 0,
   255, 255, 255, 255, 2, 0, 0, 0,
   0, 0, 0, 0, 0, 0, 224, 63]

/-- The model parsed from `ratFile`. -/
def ratModel : Tifflike :=
  [[(260, { type := 12, count := 1, value := [0, 0, 0, 0, 0, 0, 224, 63] }),
    (259, { type := 11, count := 1, value := [0, 0, 0, 63] }),
    (258, { type := 10, count := 1, value := [255, 255, 255, 255, 2, 0, 0, 0] }),
    (257, { type := 5, count := 1, value := [1, 0, 0, 0, 0, 0, 0, 0] }),
    (256, { type := 5, count := 1, value := [1, 0, 0, 0, 2, 0, 0, 0] })]]

/-- The model parsed from `dupFile`: the second entry for tag 300 shadows
the first. -/
def dupModel : Tifflike :=
  [[(300, { type := 3, count := 1, value := [9, 0] }),
    (300, { type := 3, count := 1, value := [5, 0] })]]

/-- A one-directory model whose single tile has byte count 5242881, one more
than the 5 MiB hash ceiling. -/
def bigModel : Tifflike :=
  [[(324, { type := 4, count := 1, value := [0, 0, 0, 0] }),
    (325, { type := 4, count := 1, value := [1, 0, 80, 0] })]]

/-! Helper lemmas. -/

theorem sread_some {f : List Nat} {pos : Int} {len : Nat}
    (h0 : 0 ≤ pos) (h1 : pos + (len : Int) ≤ (f.length : Int)) :
    sreadBytes f pos len = some (byteSlice f pos.toNat len, pos + (len : Int)) := by
  simp [sreadBytes, h0, h1]

theorem read_uint_some {f : List Nat} {pos : Int} {size : Nat} {bigEndian : Bool}
    (h0 : 0 ≤ pos) (h1 : pos + (size : Int) ≤ (f.length : Int)) :
    read_uint f pos size bigEndian =
      some (leDecode (fix_byte_order (byteSlice f pos.toNat size) size bigEndian),
        pos + (size : Int)) := by
  simp [read_uint, sread_some h0 h1]

theorem read_uint_bounds {f : List Nat} {pos : Int} {size : Nat} {bigEndian : Bool}
    {v : Nat} {pos1 : Int} (h : read_uint f pos size bigEndian = some (v, pos1)) :
    0 ≤ pos ∧ pos + (size : Int) ≤ (f.length : Int) := by
  simp only [read_uint] at h
  split at h
  · cases h
  · rename_i heq
    simp only [sreadBytes] at heq
    split at heq
    · rename_i hc; exact hc
    · cases heq

theorem read_entries_error_badData (f : List Nat) (bigtiff bigEndian : Bool) :
    ∀ n pos dir e, read_entries f bigtiff bigEndian n pos dir = .error e →
      ∃ s, e = .badData s := by
  intro n
  induction n with
  | zero => intro pos dir e h; simp [read_entries] at h
  | succ n ih =>
    intro pos dir e h
    simp only [read_entries] at h
    repeat' split at h
    all_goals first
      | (cases h; exact ⟨_, rfl⟩)
      | exact ih _ _ _ h

theorem read_directory_error_badData {f : List Nat} {off : Int} {visited : List Int}
    {bigtiff bigEndian : Bool} {e : TErr}
    (h : read_directory f off visited bigtiff bigEndian = .error e) :
    ∃ s, e = .badData s := by
  simp only [read_directory] at h
  repeat' split at h
  · cases h; exact ⟨_, rfl⟩
  · cases h; exact ⟨_, rfl⟩
  · cases h; exact ⟨_, rfl⟩
  · cases h
    rename_i heq
    exact read_entries_error_badData f bigtiff bigEndian _ _ _ _ heq
  · cases h; exact ⟨_, rfl⟩
  · cases h

theorem read_directory_ok_facts {f : List Nat} {off : Int} {visited : List Int}
    {bigtiff bigEndian : Bool} {d : Dir} {next : Int}
    (h : read_directory f off visited bigtiff bigEndian = .ok (d, next)) :
    1 ≤ off ∧ off ≤ (f.length : Int) ∧ off ∉ visited := by
  simp only [read_directory] at h
  by_cases h1 : off ≤ 0
  · rw [if_pos h1] at h; cases h
  · rw [if_neg h1] at h
    by_cases h2 : off ∈ visited
    · rw [if_pos h2] at h; cases h
    · rw [if_neg h2] at h
      rcases hru : read_uint f off (if bigtiff then 8 else 2) bigEndian with _ | ⟨v, p1⟩
      · simp only [hru] at h; cases h
      · have hb := read_uint_bounds hru
        refine ⟨by omega, ?_, h2⟩
        rcases hb with ⟨h0, hlen⟩
        revert hlen
        split <;> (intro hlen; omega)


theorem walkDirs_error_cases (f : List Nat) (bigtiff bigEndian : Bool) :
    ∀ fuel off visited e, walkDirs f bigtiff bigEndian fuel off visited = .error e →
      e = .fuelOut ∨ ∃ s, e = .badData s := by
  intro fuel
  induction fuel with
  | zero =>
    intro off visited e h
    simp only [walkDirs] at h
    cases h
    exact Or.inl rfl
  | succ n ih =>
    intro off visited e h
    simp only [walkDirs] at h
    repeat' split at h
    all_goals first
      | (cases h; rename_i heq; exact Or.inr (read_directory_error_badData heq))
      | (cases h; rename_i heq; exact ih _ _ _ heq)
      | cases h

theorem walkDirs_ok_chain (f : List Nat) (bigtiff bigEndian : Bool) :
    ∀ fuel off visited dirs, walkDirs f bigtiff bigEndian fuel off visited = .ok dirs →
      ChainOk f bigtiff bigEndian off visited dirs := by
  intro fuel
  induction fuel with
  | zero => intro off visited dirs h; simp only [walkDirs] at h; cases h
  | succ n ih =>
    intro off visited dirs h
    simp only [walkDirs] at h
    split at h
    · rename_i h0
      cases h
      subst h0
      exact ChainOk.nil visited
    · split at h
      · cases h
      · rename_i heq
        split at h
        · cases h
        · rename_i heq2
          cases h
          exact ChainOk.cons heq (ih _ _ _ heq2)

theorem walkDirs_no_fuelOut (f : List Nat) (bigtiff bigEndian : Bool) :
    ∀ fuel off visited,
      ((Finset.Icc 1 (f.length : Int)).filter (fun x => x ∉ visited)).card < fuel →
      walkDirs f bigtiff bigEndian fuel off visited ≠ .error .fuelOut := by
  intro fuel
  induction fuel with
  | zero => intro off visited hc; exact absurd hc (Nat.not_lt_zero _)
  | succ n ih =>
    intro off visited hc h
    simp only [walkDirs] at h
    by_cases h0 : off = 0
    · rw [if_pos h0] at h; cases h
    · rw [if_neg h0] at h
      rcases hrd : read_directory f off visited bigtiff bigEndian with e1 | ⟨d, next⟩
      · simp only [hrd] at h
        cases h
        rcases read_directory_error_badData hrd with ⟨s, hs⟩
        cases hs
      · simp only [hrd] at h
        rcases hw : walkDirs f bigtiff bigEndian n next (off :: visited) with e2 | rest
        · simp only [hw] at h
          cases h
          rcases read_directory_ok_facts hrd with ⟨hb1, hb2, hb3⟩
          refine absurd hw (ih next (off :: visited) ?_)
          have hmem : off ∈ (Finset.Icc 1 (f.length : Int)).filter
              (fun x => x ∉ visited) := by
            simp only [Finset.mem_filter, Finset.mem_Icc]
            exact ⟨⟨hb1, hb2⟩, hb3⟩
          have hset : (Finset.Icc 1 (f.length : Int)).filter
                (fun x => x ∉ off :: visited) =
              ((Finset.Icc 1 (f.length : Int)).filter (fun x => x ∉ visited)).erase off := by
            ext x
            simp only [Finset.mem_filter, Finset.mem_erase, List.mem_cons]
            tauto
          rw [hset, Finset.card_erase_of_mem hmem]
          have hpos : 0 < ((Finset.Icc 1 (f.length : Int)).filter
              (fun x => x ∉ visited)).card := Finset.card_pos.mpr ⟨off, hmem⟩
          omega
        · simp only [hw] at h; cases h

theorem parseHeader_error_fmt {f : List Nat} {e : TErr}
    (h : parseHeader f = .error e) : ∃ s, e = .fmtNotSupported s := by
  simp only [parseHeader] at h
  repeat' split at h
  all_goals first
    | (cases h; exact ⟨_, rfl⟩)
    | cases h

theorem tifflike_create_no_fuelOut (f : List Nat) :
    tifflike_create f ≠ .error .fuelOut := by
  intro h
  simp only [tifflike_create] at h
  split at h
  · cases h
    rename_i heq
    rcases parseHeader_error_fmt heq with ⟨s, hs⟩
    cases hs
  · split at h
    · cases h
      rename_i heq
      refine walkDirs_no_fuelOut f _ _ (f.length + 1) _ [] ?_ heq
      have : ((Finset.Icc 1 (f.length : Int)).filter
          (fun x => x ∉ ([] : List Int))).card = f.length := by
        simp [Int.card_Icc]
      omega
    · split at h
      · cases h
      · cases h


/-! Claim theorems. -/

/-- C1: model construction is all-or-nothing: a non-error result of
`tifflike_create` is returned only when the header parsed and the entire
directory chain parsed successfully down to a terminating next-offset of 0
(`ChainOk`), and it is never empty; any failure anywhere yields `.error`
with no model. -/
theorem tifflike_create_all_or_nothing :
    ∀ (f : List Nat) (tl : Tifflike), tifflike_create f = .ok tl →
      tl ≠ [] ∧ ∃ bigEndian bigtiff diroff,
        parseHeader f = .ok (bigEndian, bigtiff, diroff) ∧
        ChainOk f bigtiff bigEndian diroff [] tl := by
  intro f tl h
  rcases hph : parseHeader f with e | ⟨be, bt, d0⟩
  · simp only [tifflike_create, hph] at h
    cases h
  · simp only [tifflike_create, hph] at h
    rcases hw : walkDirs f bt be (f.length + 1) d0 [] with e2 | dirs
    · simp only [hw] at h
      cases h
    · simp only [hw] at h
      by_cases hemp : dirs.isEmpty
      · rw [if_pos hemp] at h; cases h
      · rw [if_neg hemp] at h
        cases h
        exact ⟨by simpa using hemp, be, bt, d0, rfl,
          walkDirs_ok_chain f bt be _ _ _ _ hw⟩

/-- Witness for C1 at a concrete one-directory file. -/
theorem tifflike_create_all_or_nothing_witness :
    ([[]] : Tifflike) ≠ [] ∧ ∃ bigEndian bigtiff diroff,
      parseHeader goodFile = .ok (bigEndian, bigtiff, diroff) ∧
      ChainOk goodFile bigtiff bigEndian diroff [] [[]] :=
  tifflike_create_all_or_nothing goodFile [[]] rfl

/-- C2: the directory walk terminates on every input (the fuel bound
`f.length + 1` is never exhausted), a revisited offset fails with
`BadData "Loop detected"`, and the concrete 2-directory cycle A at 8 and
B at 14 pointing back to 8 fails with that error. -/
theorem directory_walk_terminates_and_rejects_loops :
    (∀ f : List Nat, tifflike_create f ≠ .error .fuelOut) ∧
    (∀ (f : List Nat) (off : Int) (visited : List Int) (bigtiff bigEndian : Bool),
      0 < off → off ∈ visited →
      read_directory f off visited bigtiff bigEndian =
        .error (.badData "Loop detected")) ∧
    tifflike_create cycFile = .error (.badData "Loop detected") := by
  refine ⟨tifflike_create_no_fuelOut, ?_, rfl⟩
  intro f off visited bt be hpos hmem
  simp only [read_directory]
  rw [if_neg (by omega), if_pos hmem]

/-- Witness for C2: the loop-detection branch at a concrete revisited offset. -/
theorem directory_walk_terminates_and_rejects_loops_witness :
    read_directory cycFile 8 [8] false false = .error (.badData "Loop detected") :=
  directory_walk_terminates_and_rejects_loops.2.1 cycFile 8 [8] false false
    (by decide) (by decide)

/-- C6: a directory offset that is not positive fails with
`BadData "Bad offset"` (both as walk start and as next-offset), a
next-offset of 0 ends the chain, and a chain yielding zero directories
fails with `BadData "TIFF contains no directories"`. -/
theorem bad_offset_and_empty_chain_rejection :
    (∀ (f : List Nat) (off : Int) (visited : List Int) (bigtiff bigEndian : Bool),
      off ≤ 0 →
      read_directory f off visited bigtiff bigEndian = .error (.badData "Bad offset")) ∧
    (∀ (f : List Nat) (bigtiff bigEndian : Bool) (fuel : Nat) (visited : List Int),
      walkDirs f bigtiff bigEndian (fuel + 1) 0 visited = .ok []) ∧
    (∀ (f : List Nat) (bigtiff bigEndian : Bool) (fuel : Nat) (off : Int)
        (visited : List Int),
      off ≤ 0 → off ≠ 0 →
      walkDirs f bigtiff bigEndian (fuel + 1) off visited =
        .error (.badData "Bad offset")) ∧
    (∀ (f : List Nat) (bigEndian bigtiff : Bool),
      parseHeader f = .ok (bigEndian, bigtiff, 0) →
      tifflike_create f = .error (.badData "TIFF contains no directories")) := by
  have h1 : ∀ (f : List Nat) (off : Int) (visited : List Int) (bt be : Bool),
      off ≤ 0 → read_directory f off visited bt be = .error (.badData "Bad offset") := by
    intro f off visited bt be h
    simp only [read_directory]
    rw [if_pos h]
  refine ⟨h1, ?_, ?_, ?_⟩
  · intro f bt be fuel visited
    simp [walkDirs]
  · intro f bt be fuel off visited hle hne
    simp only [walkDirs]
    rw [if_neg hne, h1 f off visited bt be hle]
  · intro f be bt hph
    simp [tifflike_create, hph, walkDirs]

/-- Witness for C6: a negative start offset fails with the bad-offset error. -/
theorem bad_offset_and_empty_chain_rejection_witness :
    read_directory [] (-3) [] false false = .error (.badData "Bad offset") :=
  bad_offset_and_empty_chain_rejection.1 [] (-3) [] false false (by decide)

/-- C9: a directory containing the same tag id twice parses without error
and the later entry shadows the earlier one: the concrete `dupFile` with
tag 300 first 5 then 9 yields 9, and in general a fresh insertion into a
directory is what a subsequent lookup of that tag returns. -/
theorem duplicate_tags_last_write_wins :
    tifflike_create dupFile = .ok dupModel ∧
    tifflike_get_uint dupModel 0 300 0 = some 9 ∧
    (∀ (d : Dir) (tag : Nat) (item : TiffItem),
      dirLookup (dirInsert d tag item) (tag : Int) = some item) := by
  refine ⟨rfl, rfl, ?_⟩
  intro d tag item
  simp [dirLookup, dirInsert]

/-- C10: a directory index that is negative or at least the directory count
behaves like a missing tag in every accessor: lookup fails and each returns
its sentinel. -/
theorem accessors_reject_out_of_range_directory :
    ∀ (tl : Tifflike) (dir tag i : Int), dir < 0 ∨ (tl.length : Int) ≤ dir →
      get_item tl dir tag = none ∧
      tifflike_get_uint tl dir tag i = none ∧
      tifflike_get_sint tl dir tag i = none ∧
      tifflike_get_float tl dir tag i = none ∧
      tifflike_get_buffer tl dir tag = none ∧
      tifflike_get_value_count tl dir tag = 0 := by
  intro tl dir tag i h
  have hg : get_item tl dir tag = none := by
    simp only [get_item]
    rw [if_pos h]
  exact ⟨hg,
    by simp [tifflike_get_uint, get_and_check_item, hg],
    by simp [tifflike_get_sint, get_and_check_item, hg],
    by simp [tifflike_get_float, get_and_check_item, hg],
    by simp [tifflike_get_buffer, hg],
    by simp [tifflike_get_value_count, hg]⟩

/-- Witness for C10 on the empty model at directory index 0. -/
theorem accessors_reject_out_of_range_directory_witness :
    get_item [] 0 7 = none ∧
    tifflike_get_uint [] 0 7 0 = none ∧
    tifflike_get_sint [] 0 7 0 = none ∧
    tifflike_get_float [] 0 7 0 = none ∧
    tifflike_get_buffer [] 0 7 = none ∧
    tifflike_get_value_count [] 0 7 = 0 :=
  accessors_reject_out_of_range_directory [] 0 7 0 (Or.inr (by decide))


/-- C3: `read_tiff_value` with a valid width and count either decodes the
value inline — when `size * count` fits in the value field, the result is
the byte-swapped prefix of that field, independent of the file, with the
stream position untouched — or reads exactly `size * count` bytes at the
absolute `offset` and restores the prior stream position. -/
theorem read_tiff_value_inline_or_offset :
    (∀ (f : List Nat) (pos size count offset : Int) (value : List Nat)
        (value_len : Int) (bigEndian : Bool),
      0 < size → 0 < count → count ≤ ssizeMax / size → size * count ≤ value_len →
      read_tiff_value f pos size count offset value value_len bigEndian =
        (some (fix_byte_order (value.take (size * count).toNat) size.toNat bigEndian),
          pos)) ∧
    (∀ (f : List Nat) (pos size count offset : Int) (value : List Nat)
        (value_len : Int) (bigEndian : Bool),
      0 < size → 0 < count → count ≤ ssizeMax / size → value_len < size * count →
      0 ≤ offset → offset + size * count ≤ (f.length : Int) →
      read_tiff_value f pos size count offset value value_len bigEndian =
        (some (fix_byte_order (byteSlice f offset.toNat (size * count).toNat)
          size.toNat bigEndian), pos) ∧
      ((byteSlice f offset.toNat (size * count).toNat).length : Int) = size * count) := by
  constructor
  · intro f pos size count offset value value_len bigEndian h1 h2 h3 h4
    simp only [read_tiff_value]
    rw [if_neg (by push_neg; exact ⟨by omega, by omega, by omega⟩), if_pos h4]
  · intro f pos size count offset value value_len bigEndian h1 h2 h3 h4 h5 h6
    have hlen0 : 0 < size * count := mul_pos h1 h2
    have htn : ((size * count).toNat : Int) = size * count := Int.toNat_of_nonneg (by omega)
    constructor
    · simp only [read_tiff_value]
      rw [if_neg (by push_neg; exact ⟨by omega, by omega, by omega⟩),
        if_neg (by omega), if_neg (by omega), sread_some h5 (by omega)]
    · simp only [byteSlice, List.length_map, List.length_take, List.length_drop]
      omega

/-- Witness for C3: a 4-byte Short pair decoded inline from the value field. -/
theorem read_tiff_value_inline_or_offset_witness :
    read_tiff_value [] 100 2 2 0 [1, 2, 3, 4] 4 false = (some [1, 2, 3, 4], 100) :=
  (read_tiff_value_inline_or_offset.1 [] 100 2 2 0 [1, 2, 3, 4] 4 false
    (by decide) (by decide) (by decide) (by decide)).trans (by decide)

/-- C7: `get_uint` widens a Byte (1), Short (3), Long (4), IFD (13),
Long8 (16) or IFD8 (18) element at an in-range index to its unsigned
value; any other stored type, a missing tag, or an out-of-range index
fails (returning the sentinel 0 via the `ok` flag, modelled as `none`). -/
theorem get_uint_contract :
    ∀ (tl : Tifflike) (dir tag i : Int),
      (∀ item : TiffItem, get_item tl dir tag = some item → 0 ≤ i → i < item.count →
        ((item.type = 1 →
            tifflike_get_uint tl dir tag i = some (getElemU item.value 1 i.toNat)) ∧
         (item.type = 3 →
            tifflike_get_uint tl dir tag i = some (getElemU item.value 2 i.toNat)) ∧
         (item.type = 4 ∨ item.type = 13 →
            tifflike_get_uint tl dir tag i = some (getElemU item.value 4 i.toNat)) ∧
         (item.type = 16 ∨ item.type = 18 →
            tifflike_get_uint tl dir tag i = some (getElemU item.value 8 i.toNat)) ∧
         (item.type ≠ 1 → item.type ≠ 3 → item.type ≠ 4 → item.type ≠ 13 →
           item.type ≠ 16 → item.type ≠ 18 →
            tifflike_get_uint tl dir tag i = none))) ∧
      (get_item tl dir tag = none → tifflike_get_uint tl dir tag i = none) ∧
      (∀ item : TiffItem, get_item tl dir tag = some item → i < 0 ∨ item.count ≤ i →
        tifflike_get_uint tl dir tag i = none) := by
  intro tl dir tag i
  have hgac : ∀ item : TiffItem, get_item tl dir tag = some item → 0 ≤ i →
      i < item.count → get_and_check_item tl dir tag i = some item := by
    intro item hit h0 h1
    simp only [get_and_check_item, hit]
    rw [if_neg (by omega)]
  refine ⟨?_, ?_, ?_⟩
  · intro item hit h0 h1
    have hc := hgac item hit h0 h1
    refine ⟨fun ht => ?_, fun ht => ?_, fun ht => ?_, fun ht => ?_,
      fun n1 n3 n4 n13 n16 n18 => ?_⟩
    · simp [tifflike_get_uint, hc, ht]
    · simp [tifflike_get_uint, hc, ht]
    · rcases ht with ht | ht <;> simp [tifflike_get_uint, hc, ht]
    · rcases ht with ht | ht <;> simp [tifflike_get_uint, hc, ht]
    · simp [tifflike_get_uint, hc, n1, n3, n4, n13, n16, n18]
  · intro hnone
    simp [tifflike_get_uint, get_and_check_item, hnone]
  · intro item hit hrange
    simp only [tifflike_get_uint, get_and_check_item, hit]
    rw [if_pos hrange]

/-- Witness for C7: the second Short element of a concrete entry. -/
theorem get_uint_contract_witness :
    tifflike_get_uint [[(256, { type := 3, count := 2, value := [1, 0, 2, 0] })]]
      0 256 1 = some 2 :=
  (((get_uint_contract [[(256, { type := 3, count := 2, value := [1, 0, 2, 0] })]]
      0 256 1).1 { type := 3, count := 2, value := [1, 0, 2, 0] } rfl
      (by decide) (by decide)).2.1 rfl).trans (by decide)


theorem hashScan_none (tl : Tifflike) (dir ltag : Int) :
    ∀ (n i : Nat) (total : Int) (ok : Bool),
      total ≤ 5242880 → 5242880 < scanFrom tl dir ltag n i total →
      hashScan tl dir ltag n i total ok = none := by
  intro n
  induction n with
  | zero =>
    intro i total ok h1 h2
    simp only [scanFrom] at h2
    omega
  | succ n ih =>
    intro i total ok h1 h2
    simp only [scanFrom] at h2
    simp only [hashScan]
    have hval : (getUintOk tl dir ltag (i : Int) ok).1 =
        (getUintOk tl dir ltag (i : Int) true).1 := by
      simp only [getUintOk]
      split <;> rfl
    rw [hval]
    by_cases hc : 5242880 < i64wrap (total + (getUintOk tl dir ltag (i : Int) true).1)
    · rw [if_pos hc]
    · rw [if_neg hc]
      exact ih (i + 1) _ _ (by omega) h2

/-- C4: when the summed tile/strip byte counts of a directory exceed the
5 MiB ceiling, `hash_tiff_level` succeeds with the accumulator put into the
permanent Disabled state and feeds no byte range of the source to it (its
`parts` are unchanged, so no tile/strip data bytes are read). -/
theorem hash_ceiling_disables (f : List Nat) (h : HashAcc) (tl : Tifflike)
    (dir otag ltag : Int)
    (hlay : layoutOf tl dir = some (otag, ltag))
    (hcnt : tifflike_get_value_count tl dir otag = tifflike_get_value_count tl dir ltag)
    (hsum : 5242880 <
      scanSum tl dir ltag (tifflike_get_value_count tl dir otag).toNat) :
    hash_tiff_level f h tl dir = .ok { disabled := true, parts := h.parts } := by
  have hne : tifflike_get_value_count tl dir otag ≠ 0 := by
    simp only [layoutOf] at hlay
    split at hlay
    · cases hlay; assumption
    · split at hlay
      · cases hlay; assumption
      · cases hlay
  simp only [hash_tiff_level, hlay]
  rw [if_neg (by push_neg; exact ⟨hne, hcnt⟩)]
  rw [hashScan_none tl dir ltag _ 0 0 true (by norm_num) (by simpa [scanSum] using hsum)]
  rfl

/-- Witness for C4: a single tile of 5242881 bytes disables the hash. -/
theorem hash_ceiling_disables_witness :
    hash_tiff_level [] { disabled := false, parts := [] } bigModel 0 =
      .ok { disabled := true, parts := [] } :=
  hash_ceiling_disables [] { disabled := false, parts := [] } bigModel 0 324 325
    rfl rfl (by decide)

/-- C8: for a Rational entry at an in-range index, `get_float` divides
unsigned element `2i` by unsigned element `2i+1`, and for an SRational
entry the signed 32-bit elements `2i` and `2i+1`, with IEEE division
semantics — `{1,2}` yields exactly one half and `{1,0}` yields positive
infinity with the call still succeeding; Float and Double entries return
the stored value (the IEEE decoding of the stored bit pattern, e.g. the
0.5f and 0.5 patterns decode to one half); any other type fails with the
NaN sentinel.  `ratFile` exercises the Rational, SRational, Float and
Double cases end to end through `tifflike_create`. -/
theorem get_float_rational_semantics :
    (∀ (tl : Tifflike) (dir tag i : Int) (item : TiffItem),
      get_item tl dir tag = some item → 0 ≤ i → i < item.count → item.type = 5 →
      tifflike_get_float tl dir tag i =
        some (dratDiv (getElemU item.value 4 (2 * i.toNat))
          (getElemU item.value 4 (2 * i.toNat + 1)))) ∧
    (∀ (tl : Tifflike) (dir tag i : Int) (item : TiffItem),
      get_item tl dir tag = some item → 0 ≤ i → i < item.count → item.type = 10 →
      tifflike_get_float tl dir tag i =
        some (dratDiv (wrapSigned 32 (getElemU item.value 4 (2 * i.toNat)))
          (wrapSigned 32 (getElemU item.value 4 (2 * i.toNat + 1))))) ∧
    (∀ (tl : Tifflike) (dir tag i : Int) (item : TiffItem),
      get_item tl dir tag = some item → 0 ≤ i → i < item.count → item.type = 11 →
      tifflike_get_float tl dir tag i =
        some (decodeFloat32 (getElemU item.value 4 i.toNat))) ∧
    (∀ (tl : Tifflike) (dir tag i : Int) (item : TiffItem),
      get_item tl dir tag = some item → 0 ≤ i → i < item.count → item.type = 12 →
      tifflike_get_float tl dir tag i =
        some (decodeFloat64 (getElemU item.value 8 i.toNat))) ∧
    (∀ (tl : Tifflike) (dir tag i : Int) (item : TiffItem),
      get_item tl dir tag = some item → 0 ≤ i → i < item.count →
      item.type ≠ 5 → item.type ≠ 10 → item.type ≠ 11 → item.type ≠ 12 →
      tifflike_get_float tl dir tag i = none) ∧
    (∀ a : Int, 0 < a → dratDiv a 0 = .posInf) ∧
    (∀ a : Int, a < 0 → dratDiv a 0 = .negInf) ∧
    dratDiv 1 2 = .fin (1 / 2) ∧
    tifflike_create ratFile = .ok ratModel ∧
    tifflike_get_float ratModel 0 256 0 = some (.fin (1 / 2)) ∧
    tifflike_get_float ratModel 0 257 0 = some .posInf ∧
    tifflike_get_float ratModel 0 258 0 = some (.fin (-1 / 2)) ∧
    tifflike_get_float ratModel 0 259 0 = some (.fin (1 / 2)) ∧
    tifflike_get_float ratModel 0 260 0 = some (.fin (1 / 2)) := by
  have hgac : ∀ (tl : Tifflike) (dir tag i : Int) (item : TiffItem),
      get_item tl dir tag = some item → 0 ≤ i → i < item.count →
      get_and_check_item tl dir tag i = some item := by
    intro tl dir tag i item hit h0 h1
    simp only [get_and_check_item, hit]
    rw [if_neg (by omega)]
  refine ⟨?_, ?_, ?_, ?_, ?_, ?_, ?_, rfl, rfl, rfl, rfl, rfl, ?_, ?_⟩
  · intro tl dir tag i item hit h0 h1 ht
    simp [tifflike_get_float, hgac tl dir tag i item hit h0 h1, ht]
  · intro tl dir tag i item hit h0 h1 ht
    simp [tifflike_get_float, hgac tl dir tag i item hit h0 h1, ht]
  · intro tl dir tag i item hit h0 h1 ht
    simp [tifflike_get_float, hgac tl dir tag i item hit h0 h1, ht]
  · intro tl dir tag i item hit h0 h1 ht
    simp [tifflike_get_float, hgac tl dir tag i item hit h0 h1, ht]
  · intro tl dir tag i item hit h0 h1 n5 n10 n11 n12
    simp [tifflike_get_float, hgac tl dir tag i item hit h0 h1, n5, n10, n11, n12]
  · intro a ha
    simp [dratDiv, ha, ha.ne.symm]
  · intro a ha
    have h2 : a ≠ 0 := ha.ne
    have h3 : ¬0 < a := by omega
    simp [dratDiv, h2, h3]
  · have h : tifflike_get_float ratModel 0 259 0 = some (decodeFloat32 1056964608) := rfl
    rw [h]
    norm_num [decodeFloat32]
  · have h : tifflike_get_float ratModel 0 260 0 = some (decodeFloat64 4602678819172646912) := rfl
    rw [h]
    norm_num [decodeFloat64]

/-- Witness for C8: the Rational pair {1,2} of `ratModel` through the
general Rational clause. -/
theorem get_float_rational_semantics_witness :
    tifflike_get_float ratModel 0 256 0 = some (.fin (1 / 2)) :=
  (get_float_rational_semantics.1 ratModel 0 256 0
    { type := 5, count := 1, value := [1, 0, 0, 0, 2, 0, 0, 0] } rfl
    (by decide) (by decide) rfl).trans rfl


theorem sread_head2 {f : List Nat} (hlen : 2 ≤ f.length) :
    sreadBytes f 0 2 = some (byteSlice f 0 2, 2) := by
  have h := @sread_some f 0 2 (by norm_num) (by push_cast; omega)
  simpa using h

theorem parseHeader_magic_bad {f : List Nat} (hlen : 2 ≤ f.length)
    (h1 : headerMagic f ≠ 0x4949) (h2 : headerMagic f ≠ 0x4d4d) :
    parseHeader f = .error (.fmtNotSupported "Unrecognized TIFF magic number") := by
  simp only [headerMagic] at h1 h2
  simp only [parseHeader, sread_head2 hlen]
  rw [if_pos ⟨h2, h1⟩]

theorem parseHeader_version_bad {f : List Nat} (hlen : 8 ≤ f.length)
    (hm : headerMagic f = 0x4949 ∨ headerMagic f = 0x4d4d)
    (h42 : headerVersion f ≠ 42) (h43 : headerVersion f ≠ 43) :
    parseHeader f = .error (.fmtNotSupported "Unrecognized TIFF version") := by
  have hv : read_uint f 2 2 (headerBigEndian f) =
      some (headerVersion f, 4) := by
    have h := @read_uint_some f 2 2 (headerBigEndian f) (by norm_num)
      (by push_cast; omega)
    simpa [headerVersion] using h
  have hd : read_uint f 4 4 (headerBigEndian f) =
      some (leDecode (fix_byte_order (byteSlice f 4 4) 4 (headerBigEndian f)), 8) := by
    have h := @read_uint_some f 4 4 (headerBigEndian f) (by norm_num)
      (by push_cast; omega)
    simpa using h
  simp only [headerBigEndian, headerMagic] at hv hd
  simp only [headerMagic] at hm
  have hr2 : sreadBytes f 0 2 = some (byteSlice f 0 2, 2) := sread_head2 (by omega)
  simp only [parseHeader, hr2]
  rw [if_neg (by tauto)]
  simp only [hv]
  rw [if_neg h43]
  simp only [hd]
  rw [if_pos h42]

theorem parseHeader_big_bad {f : List Nat} (hlen : 16 ≤ f.length)
    (hm : headerMagic f = 0x4949 ∨ headerMagic f = 0x4d4d)
    (h43 : headerVersion f = 43)
    (hbad : headerOffsetSize f ≠ 8 ∨ headerPad f ≠ 0) :
    parseHeader f = .error (.fmtNotSupported "Unexpected value in BigTIFF header") := by
  have hv : read_uint f 2 2 (headerBigEndian f) =
      some (headerVersion f, 4) := by
    have h := @read_uint_some f 2 2 (headerBigEndian f) (by norm_num)
      (by push_cast; omega)
    simpa [headerVersion] using h
  have hos : read_uint f 4 2 (headerBigEndian f) =
      some (headerOffsetSize f, 6) := by
    have h := @read_uint_some f 4 2 (headerBigEndian f) (by norm_num)
      (by push_cast; omega)
    simpa [headerOffsetSize] using h
  have hp : read_uint f 6 2 (headerBigEndian f) =
      some (headerPad f, 8) := by
    have h := @read_uint_some f 6 2 (headerBigEndian f) (by norm_num)
      (by push_cast; omega)
    simpa [headerPad] using h
  have hd : read_uint f 8 8 (headerBigEndian f) =
      some (leDecode (fix_byte_order (byteSlice f 8 8) 8 (headerBigEndian f)), 16) := by
    have h := @read_uint_some f 8 8 (headerBigEndian f) (by norm_num)
      (by push_cast; omega)
    simpa using h
  simp only [headerBigEndian, headerMagic] at hv hos hp hd
  simp only [headerMagic] at hm
  have hr2 : sreadBytes f 0 2 = some (byteSlice f 0 2, 2) := sread_head2 (by omega)
  simp only [parseHeader, hr2]
  rw [if_neg (by tauto)]
  simp only [hv]
  rw [if_pos h43]
  simp only [hos, hp, hd]
  rw [if_pos hbad]


/-- C5: header parsing rejects with `FormatNotSupported` exactly the
non-TIFF header shapes: an unrecognized 2-byte magic, a version other than
42 or 43, and a Big header whose offset-size field is not 8 or whose
reserved field is not 0 — in every such case `tifflike_create` returns an
error and no model; conversely, every `FormatNotSupported` failure of
`tifflike_create` comes from the header parser. -/
theorem header_shape_rejection :
    (∀ f : List Nat, 2 ≤ f.length → headerMagic f ≠ 0x4949 → headerMagic f ≠ 0x4d4d →
      tifflike_create f = .error (.fmtNotSupported "Unrecognized TIFF magic number")) ∧
    (∀ f : List Nat, 8 ≤ f.length →
      headerMagic f = 0x4949 ∨ headerMagic f = 0x4d4d →
      headerVersion f ≠ 42 → headerVersion f ≠ 43 →
      tifflike_create f = .error (.fmtNotSupported "Unrecognized TIFF version")) ∧
    (∀ f : List Nat, 16 ≤ f.length →
      headerMagic f = 0x4949 ∨ headerMagic f = 0x4d4d →
      headerVersion f = 43 →
      headerOffsetSize f ≠ 8 ∨ headerPad f ≠ 0 →
      tifflike_create f = .error (.fmtNotSupported "Unexpected value in BigTIFF header")) ∧
    (∀ (f : List Nat) (s : String), tifflike_create f = .error (.fmtNotSupported s) →
      parseHeader f = .error (.fmtNotSupported s)) := by
  refine ⟨?_, ?_, ?_, ?_⟩
  · intro f hlen h1 h2
    simp [tifflike_create, parseHeader_magic_bad hlen h1 h2]
  · intro f hlen hm h42 h43
    simp [tifflike_create, parseHeader_version_bad hlen hm h42 h43]
  · intro f hlen hm h43 hbad
    simp [tifflike_create, parseHeader_big_bad hlen hm h43 hbad]
  · intro f s h
    rcases hph : parseHeader f with e | ⟨be, bt, d0⟩
    · simp only [tifflike_create, hph] at h
      cases h
      rfl
    · simp only [tifflike_create, hph] at h
      rcases hw : walkDirs f bt be (f.length + 1) d0 [] with e2 | dirs
      · simp only [hw] at h
        cases h
        rcases walkDirs_error_cases f bt be _ _ _ _ hw with h1 | ⟨s2, h2⟩
        · cases h1
        · cases h2
      · simp only [hw] at h
        by_cases hemp : dirs.isEmpty
        · rw [if_pos hemp] at h
          cases h
        · rw [if_neg hemp] at h
          cases h

/-- Witness for C5: a two-byte file with magic 0 is rejected. -/
theorem header_shape_rejection_witness :
    tifflike_create [0, 0] = .error (.fmtNotSupported "Unrecognized TIFF magic number") :=
  header_shape_rejection.1 [0, 0] (by decide) (by decide) (by decide)

end OpenSlide
